import Mathlib

/-!
Shallow embedding of `src/StockReader.py` (a single-file stock price tracker).

The script fetches daily OHLCV bars for one ticker from the Polygon.io
aggregates endpoint, writes a fixed-width text table, and renders a chart.
Effects are made explicit parameters: the network is an `Option HttpResponse`
(`none` means `requests.get` raised), the clock is an integer millisecond
timestamp, file writes and chart rendering take an `Option String` failure
oracle (`some msg` means the corresponding library call raised with that
message), and console output is collected in `printed` lists.  Python
exceptions are modelled with `Except PyExn`.
-/

/-- Exceptions that can escape the modelled Python fragment. -/
inductive PyExn where
  /-- raised by the built-in `int(...)` on a non-numeric string -/
  | valueError : PyExn
  /-- raised by `requests.get` on a network failure -/
  | requestError : PyExn
  deriving Repr, DecidableEq

/-- True exactly when an `Except` computation ended in a raised exception. -/
def raised {α : Type} : Except PyExn α → Bool
  | .error _ => true
  | .ok _ => false

/-- The decimal digit character for `d < 10` (models one character of Python's
number formatting). -/
def digitChar (d : ℕ) : Char := Char.ofNat (48 + d)

/-- Little-endian decimal digits of `n`, with `fuel` bounding the recursion
depth so that the definition is structural and evaluates inside the kernel. -/
def natDigitsAux : ℕ → ℕ → List ℕ
  | _, 0 => []
  | 0, _ + 1 => []
  | fuel + 1, n + 1 => (n + 1) % 10 :: natDigitsAux fuel ((n + 1) / 10)

/-- Little-endian decimal digits of `n` (equal to `Nat.digits 10 n`). -/
def natDigits (n : ℕ) : List ℕ := natDigitsAux n n

/-- Decimal rendering of a natural number, zero-padded on the left to width
`w` (models `strftime` zero padding and `format` padding; numbers wider than
`w` keep all their digits). -/
def padNum (w n : ℕ) : String :=
  let ds := ((natDigits n).reverse).map digitChar
  String.mk (List.replicate (w - ds.length) '0' ++ ds)

/-- Decimal rendering of a natural number with no padding (`str(n)`). -/
def natStr (n : ℕ) : String := padNum 1 n

/-- Decimal rendering of an integer (`str(z)`). -/
def intStr (z : ℤ) : String :=
  if z < 0 then "-" ++ natStr z.natAbs else natStr z.natAbs

/-- Proleptic Gregorian calendar date (year, month, day) from a count of days
since 1970-01-01, following the standard civil-from-days algorithm; this is
the date arithmetic `datetime` performs. -/
def civilFromDays (days : ℤ) : ℤ × ℕ × ℕ :=
  let z := days + 719468
  let era := Int.fdiv z 146097
  let doe := (z - era * 146097).toNat
  let yoe := (doe - doe / 1460 + doe / 36524 - doe / 146096) / 365
  let y := (yoe : ℤ) + era * 400
  let doy := doe - (365 * yoe + yoe / 4 - yoe / 100)
  let mp := (5 * doy + 2) / 153
  let d := doy - (153 * mp + 2) / 5 + 1
  let m := if mp < 10 then mp + 3 else mp - 9
  (if m ≤ 2 then y + 1 else y, m, d)

/-- Day number (days since the Unix epoch, flooring) of a millisecond
timestamp. -/
def dayOfMs (ms : ℤ) : ℤ := Int.fdiv ms 86400000

/-- Renders a civil date as `strftime('%Y-%m-%d')` does: the year zero-padded
to four digits, month and day to two, separated by dashes. -/
def fmtCivil (y : ℤ) (m d : ℕ) : String :=
  padNum 4 y.toNat ++ "-" ++ padNum 2 m ++ "-" ++ padNum 2 d

/-- The `'%Y-%m-%d'` date string of a millisecond timestamp; used both for
`datetime.now().strftime(...)` and for the `date_str` column derived from the
bar timestamp `t`. -/
def dateStrOfMs (ms : ℤ) : String :=
  let c := civilFromDays (dayOfMs ms)
  fmtCivil c.1 c.2.1 c.2.2

/-- Python's `str.strip()`: drop leading and trailing whitespace.  (Defined
over the character list so that it evaluates inside the kernel.) -/
def pyStrip (s : String) : String :=
  String.mk (((s.data.dropWhile Char.isWhitespace).reverse.dropWhile Char.isWhitespace).reverse)

/-- Python's `str.upper()` on ASCII input: uppercase every character. -/
def pyUpper (s : String) : String := String.mk (s.data.map Char.toUpper)

/-- Numeric value of a list of decimal digit characters. -/
def digitsVal (l : List Char) : ℕ :=
  l.foldl (fun a c => 10 * a + (c.toNat - 48)) 0

/-- Models the Python built-in `int(s)` on a decimal string: surrounding
whitespace is stripped, an optional sign is allowed, and the remainder must be
one or more digits; any other input raises `ValueError`, modelled as `none`. -/
def pyInt (s : String) : Option ℤ :=
  match (pyStrip s).data with
  | [] => none
  | '-' :: r =>
    if r ≠ [] ∧ r.all Char.isDigit then some (-(digitsVal r : ℤ)) else none
  | '+' :: r =>
    if r ≠ [] ∧ r.all Char.isDigit then some ((digitsVal r : ℤ)) else none
  | r => if r.all Char.isDigit then some ((digitsVal r : ℤ)) else none

/-- Round-half-to-even to the nearest integer, the rounding used by Python's
`round`, NumPy/pandas `.round`, and `format(x, '.2f')`. -/
def roundHalfEven (x : ℚ) : ℤ :=
  let f := ⌊x⌋
  if x - f < 1/2 then f
  else if (1 : ℚ)/2 < x - f then f + 1
  else if f % 2 = 0 then f else f + 1

/-- The `.round(2)` pass applied to the four price columns. -/
def round2 (x : ℚ) : ℚ := (roundHalfEven (100 * x) : ℚ) / 100

/-- A value with at most two digits after the decimal point: an integer number
of hundredths. -/
def twoDec (q : ℚ) : Prop := ∃ k : ℤ, q = (k : ℚ) / 100

/-- The `f'{x:.2f}'` rendering: round half-to-even to hundredths, then print
with exactly two decimal places. -/
def fmt2 (x : ℚ) : String :=
  let c := roundHalfEven (100 * x)
  (if c < 0 then "-" else "") ++ natStr (c.natAbs / 100) ++ "." ++ padNum 2 (c.natAbs % 100)

/-- One element of the JSON `results` array of the Polygon aggregates
response, restricted to the fields the script reads: timestamp `t` in
milliseconds, prices `o`/`h`/`l`/`c`, volume `v`. -/
structure ApiBar where
  t : ℤ
  o : ℚ
  h : ℚ
  l : ℚ
  c : ℚ
  v : ℤ
  deriving Repr, DecidableEq

/-- One row of the final DataFrame `final_df`: the columns selected by
`df[['date', 'date_str', 'open', 'high', 'low', 'close', 'volume']]`.
`date` keeps the bar's millisecond timestamp (the `datetime64` value),
`open` is spelled `open_` because `open` is a Lean keyword. -/
structure Row where
  date : ℤ
  date_str : String
  open_ : ℚ
  high : ℚ
  low : ℚ
  close : ℚ
  volume : ℤ
  deriving Repr, DecidableEq

/-- The row built from one API bar: date columns from `t`, renamed price
columns rounded to 2 decimals, volume unchanged. -/
def mkRow (b : ApiBar) : Row :=
  { date := b.t
    date_str := dateStrOfMs b.t
    open_ := round2 b.o
    high := round2 b.h
    low := round2 b.l
    close := round2 b.c
    volume := b.v }

/-- An HTTP response as the script observes it: the status code, the parsed
JSON body reduced to its `results` key (`none` when the key is absent), and
the raw text used in the error print. -/
structure HttpResponse where
  status_code : ℕ
  results : Option (List ApiBar)
  text : String
  deriving Repr, DecidableEq

deriving instance DecidableEq for Except

/-- Everything observable about one call of `get_stock_data`: its return
value or raised exception, the lines it printed, and the request it issued
(`none` when `int(days_tracked)` raised before the GET). -/
structure FetchOut where
  result : Except PyExn (Option (List Row))
  printed : List String
  request : Option (String × List (String × String))
  deriving Repr, DecidableEq

/-- Prefix of the aggregates endpoint URL built by `get_stock_data`. -/
def baseUrl : String := "https://api.polygon.io/v2/aggs/ticker/"

/-- Embedding of `get_stock_data(api_key, ticker, days_tracked)`.  `now` is
the current clock in milliseconds (`datetime.now()`); `net` is the network
oracle: `none` means `requests.get` raised.  The date range is
`[now - int(days_tracked) days, now]` rendered with `strftime('%Y-%m-%d')`;
on HTTP 200 with a non-empty `results` array the bars become rows in response
order, otherwise an error line is printed and `None` is returned. -/
def get_stock_data (api_key ticker days_tracked : String) (now : ℤ)
    (net : Option HttpResponse) : FetchOut :=
  match pyInt days_tracked with
  | none => { result := .error .valueError, printed := [], request := none }
  | some n =>
    let end_date := dateStrOfMs now
    let start_date := dateStrOfMs (now - n * 86400000)
    let url := baseUrl ++ ticker ++ "/range/1/day/" ++ start_date ++ "/" ++ end_date
    let params := [("adjusted", "true"), ("sort", "asc"), ("apikey", api_key)]
    match net with
    | none => { result := .error .requestError, printed := [], request := some (url, params) }
    | some response =>
      if response.status_code = 200 then
        match response.results with
        | some (b :: bs) =>
          { result := .ok (some ((b :: bs).map mkRow)), printed := [],
            request := some (url, params) }
        | _ =>
          { result := .ok none, printed := ["No data found in API response"],
            request := some (url, params) }
      else
        { result := .ok none,
          printed := ["API Error: " ++ natStr response.status_code ++ " - " ++ response.text],
          request := some (url, params) }

/-- Left-justify to width `w` with spaces, the `f'{s:<w}'` format (longer
strings are kept whole). -/
def ljust (w : ℕ) (s : String) : String :=
  s ++ String.mk (List.replicate (w - s.length) ' ')

/-- Decimal rendering of a table price cell, `str()` of a float that is an
integer number of hundredths: a trailing zero in the hundredths place is
dropped, a whole number prints one `.0`. -/
def qStr (q : ℚ) : String :=
  let s := if q < 0 then "-" else ""
  let h := (⌊100 * |q|⌋).toNat
  let ip := h / 100
  let fr := h % 100
  s ++ natStr ip ++ "." ++ (if fr % 10 = 0 then natStr (fr / 10) else padNum 2 fr)

/-- One data line of the text report, the row-formatting f-string of
`save_to_text_file`. -/
def rowLine (r : Row) : String :=
  ljust 12 r.date_str ++ " " ++ ljust 8 (qStr r.open_) ++ " " ++
  ljust 8 (qStr r.high) ++ " " ++ ljust 8 (qStr r.low) ++ " " ++
  ljust 8 (qStr r.close) ++ " " ++ ljust 12 (intStr r.volume) ++ "\n"

/-- Full contents of the text report: header block, column headers, one line
per row in sequence order. -/
def fileContent (rows : List Row) (nowStr : String) : String :=
  "Stock Data\n" ++ String.mk (List.replicate 50 '=') ++ "\n" ++
  "Data retrieved on: " ++ nowStr ++ "\n\n" ++
  ljust 12 "Date" ++ " " ++ ljust 8 "Open" ++ " " ++ ljust 8 "High" ++ " " ++
  ljust 8 "Low" ++ " " ++ ljust 8 "Close" ++ " " ++ ljust 12 "Volume" ++ "\n" ++
  String.mk (List.replicate 60 '-') ++ "\n" ++
  String.join (rows.map rowLine)

/-- Observable outcome of `save_to_text_file`: printed lines and the file
contents written (`none` when no complete file was produced). -/
structure SaveOut where
  printed : List String
  file : Option String
  deriving Repr, DecidableEq

/-- Embedding of `save_to_text_file(df, filename)`.  `nowStr` is the
timestamp line's clock string; `writeErr` is the file-system oracle: `some
msg` means the `open`/`write` raised with message `msg`, which the
`except Exception` clause catches and logs.  A `None` DataFrame is logged and
nothing is written.  The function never raises. -/
def save_to_text_file (df : Option (List Row)) (nowStr : String)
    (writeErr : Option String) : Except PyExn SaveOut :=
  match df with
  | none => .ok { printed := ["No data to save"], file := none }
  | some rows =>
    match writeErr with
    | some msg => .ok { printed := ["Error saving file: " ++ msg], file := none }
    | none => .ok { printed := [], file := some (fileContent rows nowStr) }

/-- Minimum of `f` over a list of rows (`df[col].min()`); the empty case is
unreachable in the pipeline and returns 0. -/
def colMin (f : Row → ℚ) : List Row → ℚ
  | [] => 0
  | r :: rs => rs.foldl (fun a x => min a (f x)) (f r)

/-- Maximum of `f` over a list of rows (`df[col].max()`). -/
def colMax (f : Row → ℚ) : List Row → ℚ
  | [] => 0
  | r :: rs => rs.foldl (fun a x => max a (f x)) (f r)

/-- The figure assembled by `create_price_graph` before `savefig`: title,
close-price line, high/low band, x-axis tick interval, y limits, the latest
price note (`plt.annotate` text and anchor point), and the file it is saved
to. -/
structure Chart where
  title : String
  closes : List (ℤ × ℚ)
  band : List (ℤ × ℚ × ℚ)
  x_interval : ℤ
  ylim : ℚ × ℚ
  latest_text : String
  latest_xy : ℤ × ℚ
  saved_to : String
  deriving Repr, DecidableEq

/-- Observable outcome of `create_price_graph`: printed lines and the chart
that was saved (`none` when no chart file was produced). -/
structure GraphOut where
  printed : List String
  chart : Option Chart
  deriving Repr, DecidableEq

/-- Embedding of `create_price_graph(stock, days_tracked, df, filename)`.
`renderErr` is the rendering oracle: `some msg` means a matplotlib call
raised with message `msg` before the figure was saved.  A `None` DataFrame is
logged and nothing is drawn; inside the `try`, `int(days_tracked)` on a
non-numeric string and `.iloc[-1]` on an empty frame raise, and every
exception is caught by the `except Exception` clause and logged; the function
never raises. -/
def create_price_graph (stock days_tracked : String) (df : Option (List Row))
    (renderErr : Option String) (filename : String) : Except PyExn GraphOut :=
  match df with
  | none => .ok { printed := ["No data to graph"], chart := none }
  | some rows =>
    let attempt : Except String Chart :=
      match pyInt days_tracked with
      | none => .error ("invalid literal for int() with base 10: " ++ days_tracked)
      | some n =>
        match rows.getLast? with
        | none => .error "single positional indexer is out-of-bounds"
        | some last =>
          match renderErr with
          | some msg => .error msg
          | none =>
            .ok { title := stock ++ " Stock Price - Last " ++ days_tracked ++ " Days"
                  closes := rows.map (fun r => (r.date, r.close))
                  band := rows.map (fun r => (r.date, r.low, r.high))
                  x_interval := max 1 (Int.fdiv n 15)
                  ylim := (colMin Row.low rows * (199/200), colMax Row.high rows * (201/200))
                  latest_text := "Latest: $" ++ fmt2 last.close
                  latest_xy := (last.date, last.close)
                  saved_to := filename }
    match attempt with
    | .ok ch => .ok { printed := [], chart := some ch }
    | .error msg => .ok { printed := ["Error creating graph: " ++ msg], chart := none }

/-- The interactive fallback branch of `get_api_key`: the prompt input is
stripped; an empty result is reported and yields `None`. -/
def promptKey (userInput : String) : Option String × List String :=
  let k := pyStrip userInput
  if k = "" then (none, ["API key is required to continue"]) else (some k, [])

/-- Embedding of `get_api_key()`.  `env` is the value of the
`POLYGON_API_KEY` environment variable (`none` when unset); a set, non-empty
value is returned directly (`if api_key:`), otherwise the user is prompted
with `userInput` as the reply. -/
def get_api_key (env : Option String) (userInput : String) : Option String × List String :=
  match env with
  | some k => if k = "" then promptKey userInput else (some k, [])
  | none => promptKey userInput

/-- Observable outcome of one run of the `__main__` block: console lines, the
HTTP request issued (if any), the text report contents and the chart file
name (each `none` when that file was not produced), and whether an exception
escaped to the top level (there is no top-level handler). -/
structure MainOut where
  printed : List String
  request : Option (String × List (String × String))
  textFile : Option String
  chartFile : Option String
  result : Except PyExn Unit
  deriving Repr, DecidableEq

/-- Embedding of the `__main__` block: resolve the API key (exit when
absent), uppercase the ticker, fetch, and on success write the report and
draw the chart; a `None` fetch result prints a failure line and produces no
files. -/
def mainRun (env : Option String) (keyInput tickerIn daysIn : String) (now : ℤ)
    (nowStr : String) (net : Option HttpResponse)
    (writeErr renderErr : Option String) : MainOut :=
  let hdr := ["=== Stock Price Tracker ==="]
  match get_api_key env keyInput with
  | (none, p1) =>
    { printed := hdr ++ p1 ++ ["Exiting..."], request := none,
      textFile := none, chartFile := none, result := .ok () }
  | (some key, p1) =>
    let stock := pyUpper tickerIn
    let fo := get_stock_data key stock daysIn now net
    match fo.result with
    | .error e =>
      { printed := hdr ++ p1 ++ fo.printed, request := fo.request,
        textFile := none, chartFile := none, result := .error e }
    | .ok none =>
      { printed := hdr ++ p1 ++ fo.printed ++ ["Failed to retrieve data"],
        request := fo.request, textFile := none, chartFile := none, result := .ok () }
    | .ok (some rows) =>
      let succ := ["Successfully retrieved data for " ++ stock]
      match save_to_text_file (some rows) nowStr writeErr with
      | .error e =>
        { printed := hdr ++ p1 ++ fo.printed ++ succ, request := fo.request,
          textFile := none, chartFile := none, result := .error e }
      | .ok so =>
        match create_price_graph stock daysIn (some rows) renderErr "stock_chart.png" with
        | .error e =>
          { printed := hdr ++ p1 ++ fo.printed ++ succ ++ so.printed,
            request := fo.request, textFile := so.file, chartFile := none,
            result := .error e }
        | .ok go =>
          { printed := hdr ++ p1 ++ fo.printed ++ succ ++ so.printed ++ go.printed,
            request := fo.request, textFile := so.file,
            chartFile := go.chart.map Chart.saved_to, result := .ok () }

/-- A string of shape `YYYY-MM-DD`: four digits, a dash, two digits, a dash,
two digits. -/
def isYMDStr (s : String) : Prop :=
  ∃ y m d : List Char,
    s.data = y ++ '-' :: m ++ '-' :: d ∧
    y.length = 4 ∧ m.length = 2 ∧ d.length = 2 ∧
    ∀ c ∈ y ++ m ++ d, c.isDigit = true

/-- A concrete daily bar (2025-10-10) used to exercise the theorems. -/
def sampleBar1 : ApiBar :=
  { t := 1760054400000, o := 123456/1000, h := 1301/10, l := 1199/10, c := 1255/10, v := 1000 }

/-- A concrete daily bar (2025-10-11) used to exercise the theorems. -/
def sampleBar2 : ApiBar :=
  { t := 1760140800000, o := 1255/10, h := 132, l := 124, c := 128755/1000, v := 1500 }

/-- A concrete successful response holding two bars. -/
def resp200 : HttpResponse :=
  { status_code := 200, results := some [sampleBar1, sampleBar2], text := "ok" }

/-- A concrete failed response (unknown key). -/
def resp404 : HttpResponse :=
  { status_code := 404, results := none, text := "Unknown API Key" }

/-- A concrete row used by the chart theorems. -/
def sampleRow1 : Row :=
  { date := 1760054400000, date_str := "2025-10-10", open_ := 123, high := 130,
    low := 120, close := 125, volume := 1000 }

/-- A concrete row used by the chart theorems; its close, 128.695, exercises
the two-decimal formatting of the price note. -/
def sampleRow2 : Row :=
  { date := 1760140800000, date_str := "2025-10-11", open_ := 125, high := 132,
    low := 124, close := 25739/200, volume := 1500 }

theorem natDigitsAux_eq (fuel n : ℕ) (h : n ≤ fuel) :
    natDigitsAux fuel n = Nat.digits 10 n := by
  induction fuel generalizing n with
  | zero => interval_cases n; simp [natDigitsAux]
  | succ f ih =>
    cases n with
    | zero => simp [natDigitsAux]
    | succ m =>
      rw [natDigitsAux, Nat.digits_def' (by norm_num : (1 : ℕ) < 10) (Nat.succ_pos m)]
      congr 1
      exact ih _ (by omega)

theorem natDigits_eq (n : ℕ) : natDigits n = Nat.digits 10 n :=
  natDigitsAux_eq n n le_rfl

theorem padNum_data (w n : ℕ) :
    (padNum w n).data =
      List.replicate (w - (((Nat.digits 10 n).reverse).map digitChar).length) '0' ++
        ((Nat.digits 10 n).reverse).map digitChar := by
  unfold padNum
  rw [natDigits_eq]

theorem padNum_length (w n : ℕ) (h : n < 10 ^ w) : (padNum w n).data.length = w := by
  rw [padNum_data, List.length_append, List.length_replicate]
  have hlen : (Nat.digits 10 n).length ≤ w := by
    rcases Nat.eq_zero_or_pos n with hn | hn
    · subst hn; simp
    · have h1 := Nat.digits_len 10 n (by norm_num) (Nat.pos_iff_ne_zero.mp hn)
      rw [h1]
      have h2 := Nat.log_lt_of_lt_pow (Nat.pos_iff_ne_zero.mp hn) h
      omega
  simp [List.length_map]
  omega

theorem padNum_digits (w n : ℕ) : ∀ c ∈ (padNum w n).data, c.isDigit = true := by
  rw [padNum_data]
  intro c hc
  rcases List.mem_append.mp hc with h | h
  · rw [List.eq_of_mem_replicate h]; decide
  · rcases List.mem_map.mp h with ⟨d, hd, rfl⟩
    have hd10 : d < 10 := Nat.digits_lt_base (by norm_num) (List.mem_reverse.mp hd)
    unfold digitChar
    interval_cases d <;> decide

theorem fmtCivil_isYMD (y : ℤ) (m d : ℕ)
    (hy : y.toNat < 10000) (hm : m < 100) (hd : d < 100) :
    isYMDStr (fmtCivil y m d) := by
  refine ⟨(padNum 4 y.toNat).data, (padNum 2 m).data, (padNum 2 d).data, ?_, ?_, ?_, ?_, ?_⟩
  · show (fmtCivil y m d).data = _
    unfold fmtCivil
    simp [String.data_append]
  · exact padNum_length 4 y.toNat (by norm_num at hy ⊢; omega)
  · exact padNum_length 2 m (by omega)
  · exact padNum_length 2 d (by omega)
  · intro c hc
    rcases List.mem_append.mp hc with h | h
    · rcases List.mem_append.mp h with h2 | h2
      · exact padNum_digits 4 y.toNat c h2
      · exact padNum_digits 2 m c h2
    · exact padNum_digits 2 d c h

theorem dayOfMs_sub (now n : ℤ) : dayOfMs (now - n * 86400000) = dayOfMs now - n := by
  unfold dayOfMs
  rw [Int.fdiv_eq_ediv _ (by norm_num), Int.fdiv_eq_ediv _ (by norm_num)]
  omega

theorem gsd_request (api_key ticker d : String) (n now : ℤ) (net : Option HttpResponse)
    (hd : pyInt d = some n) :
    (get_stock_data api_key ticker d now net).request =
      some (baseUrl ++ ticker ++ "/range/1/day/" ++ dateStrOfMs (now - n * 86400000) ++
          "/" ++ dateStrOfMs now,
        [("adjusted", "true"), ("sort", "asc"), ("apikey", api_key)]) := by
  unfold get_stock_data
  rw [hd]
  rcases net with _ | ⟨sc, rs, tx⟩
  · rfl
  · by_cases hs : sc = 200
    · rcases rs with _ | ⟨_ | ⟨b, bs⟩⟩ <;> simp [hs]
    · simp [hs]

theorem gsd_bad (api_key ticker d : String) (n now : ℤ) (resp : HttpResponse)
    (hd : pyInt d = some n)
    (hbad : resp.status_code ≠ 200 ∨ resp.results = none ∨ resp.results = some []) :
    (get_stock_data api_key ticker d now (some resp)).result = .ok none ∧
    ∃ msg, (get_stock_data api_key ticker d now (some resp)).printed = [msg] := by
  unfold get_stock_data
  rw [hd]
  rcases resp with ⟨sc, rs, tx⟩
  rcases hbad with h | h | h
  · simp_all
  · subst h; by_cases hsc : sc = 200 <;> simp_all
  · subst h; by_cases hsc : sc = 200 <;> simp_all

theorem gsd_ok (api_key ticker d : String) (n now : ℤ) (resp : HttpResponse)
    (b : ApiBar) (bs : List ApiBar)
    (hd : pyInt d = some n) (hs : resp.status_code = 200)
    (hr : resp.results = some (b :: bs)) :
    (get_stock_data api_key ticker d now (some resp)).result =
      .ok (some ((b :: bs).map mkRow)) ∧
    (get_stock_data api_key ticker d now (some resp)).printed = [] := by
  unfold get_stock_data
  rw [hd]
  rcases resp with ⟨sc, rs, tx⟩
  simp_all

theorem gsd_result_shape (api_key ticker d : String) (now : ℤ)
    (net : Option HttpResponse) (rows : List Row)
    (h : (get_stock_data api_key ticker d now net).result = .ok (some rows)) :
    ∃ bars : List ApiBar, rows = bars.map mkRow := by
  unfold get_stock_data at h
  cases hp : pyInt d <;> rw [hp] at h
  · simp at h
  · rcases net with _ | ⟨sc, rs, tx⟩
    · simp at h
    · by_cases hsc : sc = 200
      · rcases rs with _ | ⟨_ | ⟨b, bs⟩⟩ <;> simp_all
        exact ⟨b :: bs, h.symm⟩
      · simp_all

theorem map_mkRow_date (l : List ApiBar) : (l.map mkRow).map Row.date = l.map ApiBar.t := by
  rw [List.map_map]; rfl

theorem get_api_key_env (k userIn : String) (hk : k ≠ "") :
    get_api_key (some k) userIn = (some k, []) := by
  simp [get_api_key, hk]

theorem main_fetch_none (k keyIn tickerIn daysIn : String) (now : ℤ)
    (nowStr : String) (net : Option HttpResponse) (we re : Option String)
    (hk : k ≠ "")
    (hres : (get_stock_data k (pyUpper tickerIn) daysIn now net).result = .ok none) :
    (mainRun (some k) keyIn tickerIn daysIn now nowStr net we re).textFile = none ∧
    (mainRun (some k) keyIn tickerIn daysIn now nowStr net we re).chartFile = none ∧
    "Failed to retrieve data" ∈
      (mainRun (some k) keyIn tickerIn daysIn now nowStr net we re).printed := by
  unfold mainRun
  rw [get_api_key_env k keyIn hk]
  simp only [hres]
  simp

theorem main_request_eq (k keyIn tickerIn daysIn : String) (now : ℤ) (nowStr : String)
    (net : Option HttpResponse) (we re : Option String) (hk : k ≠ "") :
    (mainRun (some k) keyIn tickerIn daysIn now nowStr net we re).request =
      (get_stock_data k (pyUpper tickerIn) daysIn now net).request := by
  unfold mainRun
  rw [get_api_key_env k keyIn hk]
  cases hres : (get_stock_data k (pyUpper tickerIn) daysIn now net).result with
  | error e => simp [hres]
  | ok o =>
    cases o with
    | none => simp [hres]
    | some rows =>
      simp only [hres]
      cases hsv : save_to_text_file (some rows) nowStr we with
      | error e => simp [hsv]
      | ok so =>
        cases hgr : create_price_graph (pyUpper tickerIn) daysIn (some rows) re "stock_chart.png" with
        | error e => simp [hsv, hgr]
        | ok go => simp [hsv, hgr]

theorem main_exit_no_request (keyIn tickerIn daysIn : String) (now : ℤ) (nowStr : String)
    (net : Option HttpResponse) (we re : Option String) (he : pyStrip keyIn = "") :
    (mainRun none keyIn tickerIn daysIn now nowStr net we re).request = none ∧
    "Exiting..." ∈ (mainRun none keyIn tickerIn daysIn now nowStr net we re).printed := by
  unfold mainRun
  simp [get_api_key, promptKey, he]

/-- C1 (counterexample): the claim says every failure is caught at the point
of occurrence and that `get_stock_data` never raises for any inputs,
including a non-numeric `days_tracked`; but on `days_tracked = "thirty"` the
`int(...)` call raises `ValueError`, nothing catches it, and the call raises
even with a healthy network. -/
theorem C1_counterexample :
    raised (get_stock_data "key" "AAPL" "thirty" 1760227200000 (some resp200)).result = true := by
  rfl

/-- C1 (amended): `get_stock_data` contains no exception handler; it raises
precisely when `int(days_tracked)` fails to parse or the HTTP GET raises, and
otherwise returns normally — the explicitly checked failures (non-200 status,
missing or empty results) are printed and yield `None` rather than raising. -/
theorem C1_amended_raises_iff (api_key ticker days_tracked : String) (now : ℤ)
    (net : Option HttpResponse) :
    raised (get_stock_data api_key ticker days_tracked now net).result =
      ((pyInt days_tracked).isNone || net.isNone) := by
  unfold get_stock_data
  rcases hp : pyInt days_tracked with _ | nn
  · rfl
  · rcases net with _ | ⟨sc, rs, tx⟩
    · rfl
    · by_cases hs : sc = 200
      · rcases rs with _ | ⟨_ | ⟨b, bs⟩⟩ <;> simp [hs, raised]
      · simp [hs, raised]

/-- C2: when the HTTP response has a non-200 status, or has status 200 but a
missing or empty `results` array, `get_stock_data` prints one error line and
returns `None`; the main block then prints the failure line and produces
neither the text report nor the chart file. -/
theorem C2_bad_response_no_output (k keyIn tickerIn daysIn : String) (n now : ℤ)
    (nowStr : String) (resp : HttpResponse) (we re : Option String)
    (hk : k ≠ "") (hd : pyInt daysIn = some n)
    (hbad : resp.status_code ≠ 200 ∨ resp.results = none ∨ resp.results = some []) :
    (get_stock_data k (pyUpper tickerIn) daysIn now (some resp)).result = .ok none ∧
    (∃ msg, (get_stock_data k (pyUpper tickerIn) daysIn now (some resp)).printed = [msg]) ∧
    (mainRun (some k) keyIn tickerIn daysIn now nowStr (some resp) we re).textFile = none ∧
    (mainRun (some k) keyIn tickerIn daysIn now nowStr (some resp) we re).chartFile = none ∧
    "Failed to retrieve data" ∈
      (mainRun (some k) keyIn tickerIn daysIn now nowStr (some resp) we re).printed := by
  obtain ⟨h1, h2⟩ := gsd_bad k (pyUpper tickerIn) daysIn n now resp hd hbad
  obtain ⟨h3, h4, h5⟩ := main_fetch_none k keyIn tickerIn daysIn now nowStr (some resp) we re hk h1
  exact ⟨h1, h2, h3, h4, h5⟩

/-- C2 witness: the theorem applied to a 404 response on a concrete run. -/
theorem C2_witness :
    (("K" : String) ≠ "" ∧ pyInt "30" = some 30 ∧
      (resp404.status_code ≠ 200 ∨ resp404.results = none ∨ resp404.results = some [])) ∧
    ((get_stock_data "K" (pyUpper "aapl") "30" 1760227200000 (some resp404)).result = .ok none ∧
     (∃ msg, (get_stock_data "K" (pyUpper "aapl") "30" 1760227200000 (some resp404)).printed = [msg]) ∧
     (mainRun (some "K") "ignored" "aapl" "30" 1760227200000 "2025-10-12 09:00:00"
        (some resp404) none none).textFile = none ∧
     (mainRun (some "K") "ignored" "aapl" "30" 1760227200000 "2025-10-12 09:00:00"
        (some resp404) none none).chartFile = none ∧
     "Failed to retrieve data" ∈
       (mainRun (some "K") "ignored" "aapl" "30" 1760227200000 "2025-10-12 09:00:00"
          (some resp404) none none).printed) :=
  ⟨⟨by decide, by decide, Or.inl (by decide)⟩,
   C2_bad_response_no_output "K" "ignored" "aapl" "30" 30 1760227200000
     "2025-10-12 09:00:00" resp404 none none (by decide) (by decide) (Or.inl (by decide))⟩

/-- C3: for a numeric lookback input parsing to `n`, the requested URL embeds
`start_date` and `end_date` where the end is the current date, the start day
number is exactly `n` days before the end day number, and both strings have
the `YYYY-MM-DD` shape (whenever the civil components are in the `strftime`
padding range). -/
theorem C3_date_range (api_key ticker days_tracked : String) (n now : ℤ)
    (net : Option HttpResponse)
    (hn : pyInt days_tracked = some n)
    (hyS : (civilFromDays (dayOfMs (now - n * 86400000))).1.toNat < 10000)
    (hmS : (civilFromDays (dayOfMs (now - n * 86400000))).2.1 < 100)
    (hdS : (civilFromDays (dayOfMs (now - n * 86400000))).2.2 < 100)
    (hyE : (civilFromDays (dayOfMs now)).1.toNat < 10000)
    (hmE : (civilFromDays (dayOfMs now)).2.1 < 100)
    (hdE : (civilFromDays (dayOfMs now)).2.2 < 100) :
    (get_stock_data api_key ticker days_tracked now net).request =
      some (baseUrl ++ ticker ++ "/range/1/day/" ++ dateStrOfMs (now - n * 86400000) ++
        "/" ++ dateStrOfMs now,
        [("adjusted", "true"), ("sort", "asc"), ("apikey", api_key)]) ∧
    dayOfMs (now - n * 86400000) = dayOfMs now - n ∧
    isYMDStr (dateStrOfMs (now - n * 86400000)) ∧ isYMDStr (dateStrOfMs now) :=
  ⟨gsd_request api_key ticker days_tracked n now net hn,
   dayOfMs_sub now n,
   fmtCivil_isYMD (civilFromDays (dayOfMs (now - n * 86400000))).1
     (civilFromDays (dayOfMs (now - n * 86400000))).2.1
     (civilFromDays (dayOfMs (now - n * 86400000))).2.2 hyS hmS hdS,
   fmtCivil_isYMD (civilFromDays (dayOfMs now)).1
     (civilFromDays (dayOfMs now)).2.1
     (civilFromDays (dayOfMs now)).2.2 hyE hmE hdE⟩

/-- C3 witness: the theorem applied to a 30-day window ending 2025-10-12. -/
theorem C3_witness :
    (pyInt "30" = some 30 ∧
      (civilFromDays (dayOfMs ((1760227200000 : ℤ) - 30 * 86400000))).1.toNat < 10000 ∧
      (civilFromDays (dayOfMs ((1760227200000 : ℤ) - 30 * 86400000))).2.1 < 100 ∧
      (civilFromDays (dayOfMs ((1760227200000 : ℤ) - 30 * 86400000))).2.2 < 100 ∧
      (civilFromDays (dayOfMs (1760227200000 : ℤ))).1.toNat < 10000 ∧
      (civilFromDays (dayOfMs (1760227200000 : ℤ))).2.1 < 100 ∧
      (civilFromDays (dayOfMs (1760227200000 : ℤ))).2.2 < 100) ∧
    ((get_stock_data "K" "AAPL" "30" 1760227200000 (some resp200)).request =
      some (baseUrl ++ "AAPL" ++ "/range/1/day/" ++
        dateStrOfMs ((1760227200000 : ℤ) - 30 * 86400000) ++ "/" ++
        dateStrOfMs (1760227200000 : ℤ),
        [("adjusted", "true"), ("sort", "asc"), ("apikey", "K")]) ∧
     dayOfMs ((1760227200000 : ℤ) - 30 * 86400000) = dayOfMs (1760227200000 : ℤ) - 30 ∧
     isYMDStr (dateStrOfMs ((1760227200000 : ℤ) - 30 * 86400000)) ∧
     isYMDStr (dateStrOfMs (1760227200000 : ℤ))) :=
  ⟨⟨by decide, by decide, by decide, by decide, by decide, by decide, by decide⟩,
   C3_date_range "K" "AAPL" "30" 30 1760227200000 (some resp200) (by decide)
     (by decide) (by decide) (by decide) (by decide) (by decide) (by decide)⟩

/-- C4: every row of a successfully returned table has all four price fields
equal to an integer number of hundredths — the `.round(2)` pass leaves at
most two digits after the decimal point. -/
theorem C4_two_decimals (api_key ticker days_tracked : String) (now : ℤ)
    (net : Option HttpResponse) (rows : List Row)
    (h : (get_stock_data api_key ticker days_tracked now net).result = .ok (some rows)) :
    ∀ r ∈ rows, twoDec r.open_ ∧ twoDec r.high ∧ twoDec r.low ∧ twoDec r.close := by
  obtain ⟨bars, rfl⟩ := gsd_result_shape api_key ticker days_tracked now net rows h
  intro r hr
  rcases List.mem_map.mp hr with ⟨b, hb, rfl⟩
  exact ⟨⟨roundHalfEven (100 * b.o), rfl⟩, ⟨roundHalfEven (100 * b.h), rfl⟩,
    ⟨roundHalfEven (100 * b.l), rfl⟩, ⟨roundHalfEven (100 * b.c), rfl⟩⟩

/-- C4 witness: the theorem applied to a concrete two-bar fetch (sampleBar1
carries the price 123.456, rounded to 123.46). -/
theorem C4_witness :
    (get_stock_data "K" "AAPL" "30" 1760227200000 (some resp200)).result =
      .ok (some ([sampleBar1, sampleBar2].map mkRow)) ∧
    (∀ r ∈ [sampleBar1, sampleBar2].map mkRow,
      twoDec r.open_ ∧ twoDec r.high ∧ twoDec r.low ∧ twoDec r.close) := by
  have h := (gsd_ok "K" "AAPL" "30" 30 1760227200000 resp200 sampleBar1 [sampleBar2]
    (by decide) rfl rfl).1
  exact ⟨h, C4_two_decimals "K" "AAPL" "30" 1760227200000 (some resp200)
    ([sampleBar1, sampleBar2].map mkRow) h⟩

/-- C5: the request carries `sort=asc`; a successful fetch returns one row
per bar in response order with each row's date equal to its bar's timestamp,
so ascending bar order gives ascending row dates; and `save_to_text_file`
writes the file whose data lines are the rows in sequence order (the
`fileContent` of the rows). -/
theorem C5_ascending_order (api_key ticker days_tracked : String) (n now : ℤ)
    (resp : HttpResponse) (b : ApiBar) (bs : List ApiBar) (nowStr : String)
    (hd : pyInt days_tracked = some n) (hs : resp.status_code = 200)
    (hr : resp.results = some (b :: bs)) :
    (∃ url, (get_stock_data api_key ticker days_tracked now (some resp)).request =
      some (url, [("adjusted", "true"), ("sort", "asc"), ("apikey", api_key)])) ∧
    (get_stock_data api_key ticker days_tracked now (some resp)).result =
      .ok (some ((b :: bs).map mkRow)) ∧
    ((b :: bs).map mkRow).map Row.date = (b :: bs).map ApiBar.t ∧
    (List.Sorted (· ≤ ·) ((b :: bs).map ApiBar.t) →
      List.Sorted (· ≤ ·) (((b :: bs).map mkRow).map Row.date)) ∧
    save_to_text_file (some ((b :: bs).map mkRow)) nowStr none =
      .ok { printed := [], file := some (fileContent ((b :: bs).map mkRow) nowStr) } := by
  refine ⟨⟨_, gsd_request api_key ticker days_tracked n now (some resp) hd⟩,
    (gsd_ok api_key ticker days_tracked n now resp b bs hd hs hr).1, map_mkRow_date _, ?_, rfl⟩
  intro hsort
  rwa [map_mkRow_date]

/-- C5 witness: the theorem applied to a concrete two-bar fetch. -/
theorem C5_witness :
    (pyInt "30" = some 30 ∧ resp200.status_code = 200 ∧
      resp200.results = some (sampleBar1 :: [sampleBar2])) ∧
    ((∃ url, (get_stock_data "K" "AAPL" "30" 1760227200000 (some resp200)).request =
      some (url, [("adjusted", "true"), ("sort", "asc"), ("apikey", "K")])) ∧
    (get_stock_data "K" "AAPL" "30" 1760227200000 (some resp200)).result =
      .ok (some ((sampleBar1 :: [sampleBar2]).map mkRow)) ∧
    ((sampleBar1 :: [sampleBar2]).map mkRow).map Row.date =
      (sampleBar1 :: [sampleBar2]).map ApiBar.t ∧
    (List.Sorted (· ≤ ·) ((sampleBar1 :: [sampleBar2]).map ApiBar.t) →
      List.Sorted (· ≤ ·) (((sampleBar1 :: [sampleBar2]).map mkRow).map Row.date)) ∧
    save_to_text_file (some ((sampleBar1 :: [sampleBar2]).map mkRow)) "2025-10-12 09:00:00" none =
      .ok { printed := [],
            file := some (fileContent ((sampleBar1 :: [sampleBar2]).map mkRow) "2025-10-12 09:00:00") }) :=
  ⟨⟨by decide, rfl, rfl⟩,
   C5_ascending_order "K" "AAPL" "30" 30 1760227200000 resp200 sampleBar1 [sampleBar2]
     "2025-10-12 09:00:00" (by decide) rfl rfl⟩

/-- C6: `get_api_key` returns the environment value when it is set and
non-empty; an unset (or empty) environment falls through to the prompt,
whose stripped reply is returned when non-empty; an empty stripped reply
prints the requirement message and yields `None`, after which the main block
prints `Exiting...` and issues no HTTP request. -/
theorem C6_api_key (k userIn keyIn tickerIn daysIn : String) (now : ℤ) (nowStr : String)
    (net : Option HttpResponse) (we re : Option String)
    (hk : k ≠ "") (hu : pyStrip userIn ≠ "") (he : pyStrip keyIn = "") :
    get_api_key (some k) userIn = (some k, []) ∧
    get_api_key (some "") userIn = get_api_key none userIn ∧
    get_api_key none userIn = (some (pyStrip userIn), []) ∧
    get_api_key none keyIn = (none, ["API key is required to continue"]) ∧
    (mainRun none keyIn tickerIn daysIn now nowStr net we re).request = none ∧
    "Exiting..." ∈ (mainRun none keyIn tickerIn daysIn now nowStr net we re).printed := by
  obtain ⟨h5, h6⟩ := main_exit_no_request keyIn tickerIn daysIn now nowStr net we re he
  refine ⟨get_api_key_env k userIn hk, rfl, ?_, ?_, h5, h6⟩
  · simp [get_api_key, promptKey, hu]
  · simp [get_api_key, promptKey, he]

/-- C6 witness: the theorem applied to a set key, a non-blank reply, and a
blank reply. -/
theorem C6_witness :
    (("MYKEY" : String) ≠ "" ∧ pyStrip " abc " ≠ "" ∧ pyStrip "  " = "") ∧
    (get_api_key (some "MYKEY") " abc " = (some "MYKEY", []) ∧
     get_api_key (some "") " abc " = get_api_key none " abc " ∧
     get_api_key none " abc " = (some (pyStrip " abc "), []) ∧
     get_api_key none "  " = (none, ["API key is required to continue"]) ∧
     (mainRun none "  " "AAPL" "30" 1760227200000 "2025-10-12 09:00:00" (some resp200)
        none none).request = none ∧
     "Exiting..." ∈ (mainRun none "  " "AAPL" "30" 1760227200000 "2025-10-12 09:00:00"
        (some resp200) none none).printed) :=
  ⟨⟨by decide, by decide, by decide⟩,
   C6_api_key "MYKEY" " abc " "  " "AAPL" "30" 1760227200000 "2025-10-12 09:00:00"
     (some resp200) none none (by decide) (by decide) (by decide)⟩

/-- C7: `save_to_text_file` never raises — an absent table is logged
(`No data to save`) with no file created, and a failing write is caught and
logged (`Error saving file: ...`) with no complete file produced. -/
theorem C7_save_never_raises (df : Option (List Row)) (nowStr : String)
    (writeErr : Option String) (rows : List Row) (msg : String) :
    raised (save_to_text_file df nowStr writeErr) = false ∧
    save_to_text_file none nowStr writeErr =
      .ok { printed := ["No data to save"], file := none } ∧
    save_to_text_file (some rows) nowStr (some msg) =
      .ok { printed := ["Error saving file: " ++ msg], file := none } := by
  refine ⟨?_, rfl, rfl⟩
  rcases df with _ | rows'
  · rfl
  · cases writeErr <;> rfl

/-- C8: `create_price_graph` never lets an exception escape — an absent table
is logged (`No data to graph`) and produces no chart, and every exception
raised while building, saving or showing the chart (a bad `days_tracked`, an
empty frame at `.iloc[-1]`, or a rendering failure) is caught and logged. -/
theorem C8_graph_never_raises (stock days_tracked : String) (df : Option (List Row))
    (renderErr : Option String) (filename : String) :
    raised (create_price_graph stock days_tracked df renderErr filename) = false ∧
    create_price_graph stock days_tracked none renderErr filename =
      .ok { printed := ["No data to graph"], chart := none } := by
  refine ⟨?_, rfl⟩
  rcases df with _ | rows
  · rfl
  · simp only [create_price_graph]
    rcases hp : pyInt days_tracked with _ | n
    · rfl
    · rcases hl : rows.getLast? with _ | last
      · rfl
      · cases renderErr <;> rfl

/-- C9: when a chart is produced for a non-empty row sequence, its price note
shows the close of the last row formatted to two decimals and is anchored at
that row's date and close value. -/
theorem C9_latest_close (stock days_tracked : String) (rows : List Row) (last : Row)
    (n : ℤ) (filename : String)
    (hn : pyInt days_tracked = some n) (hl : rows.getLast? = some last) :
    ∃ ch, create_price_graph stock days_tracked (some rows) none filename =
        .ok { printed := [], chart := some ch } ∧
      ch.latest_text = "Latest: $" ++ fmt2 last.close ∧
      ch.latest_xy = (last.date, last.close) := by
  simp only [create_price_graph, hn, hl]
  exact ⟨_, rfl, rfl, rfl⟩

/-- C9 witness: the theorem applied to two concrete rows. -/
theorem C9_witness :
    (pyInt "30" = some 30 ∧ [sampleRow1, sampleRow2].getLast? = some sampleRow2) ∧
    (∃ ch, create_price_graph "AAPL" "30" (some [sampleRow1, sampleRow2]) none "stock_chart.png" =
        .ok { printed := [], chart := some ch } ∧
      ch.latest_text = "Latest: $" ++ fmt2 sampleRow2.close ∧
      ch.latest_xy = (sampleRow2.date, sampleRow2.close)) :=
  ⟨⟨by decide, rfl⟩,
   C9_latest_close "AAPL" "30" [sampleRow1, sampleRow2] sampleRow2 30 "stock_chart.png"
     (by decide) rfl⟩

/-- C10: the URL of the request issued by a run embeds the entered ticker
converted to uppercase. -/
theorem C10_ticker_uppercased (k keyIn tickerIn daysIn : String) (n now : ℤ)
    (nowStr : String) (net : Option HttpResponse) (we re : Option String)
    (hk : k ≠ "") (hd : pyInt daysIn = some n) :
    (mainRun (some k) keyIn tickerIn daysIn now nowStr net we re).request =
      some (baseUrl ++ pyUpper tickerIn ++ "/range/1/day/" ++
        dateStrOfMs (now - n * 86400000) ++ "/" ++ dateStrOfMs now,
        [("adjusted", "true"), ("sort", "asc"), ("apikey", k)]) := by
  rw [main_request_eq k keyIn tickerIn daysIn now nowStr net we re hk]
  exact gsd_request k (pyUpper tickerIn) daysIn n now net hd

/-- C10 witness: the theorem applied to the lowercase ticker `aapl`. -/
theorem C10_witness :
    (("K" : String) ≠ "" ∧ pyInt "30" = some 30 ∧ pyUpper "aapl" = "AAPL") ∧
    (mainRun (some "K") "ignored" "aapl" "30" 1760227200000 "2025-10-12 09:00:00"
        (some resp200) none none).request =
      some (baseUrl ++ pyUpper "aapl" ++ "/range/1/day/" ++
        dateStrOfMs ((1760227200000 : ℤ) - 30 * 86400000) ++ "/" ++
        dateStrOfMs (1760227200000 : ℤ),
        [("adjusted", "true"), ("sort", "asc"), ("apikey", "K")]) :=
  ⟨⟨by decide, by decide, by decide⟩,
   C10_ticker_uppercased "K" "ignored" "aapl" "30" 30 1760227200000 "2025-10-12 09:00:00"
     (some resp200) none none (by decide) (by decide)⟩
